import Mathlib

set_option maxRecDepth 20000

/-!
Verification of the document-analysis orchestration subsystem of the
AI_PDF_project repository: the response parser (`PDFAnalyzerBase._parse_response`),
the LangGraph fallback orchestrator (`LangGraphPDFAnalyzer`), and the document
processing pipeline (`DocumentProcessor.process_document`).

The Python code is shallowly embedded:
  * Python values that can appear in a parsed response record are `PVal`;
    JSON numbers are carried as exact decimals (`PyDec`) — `json.loads`
    parses number literals to floats and `Decimal(str(x))` recovers the
    shortest decimal representation, which for every literal within double
    round-trip precision is numerically the literal itself.
  * `json.loads` is modelled by a fuelled recursive-descent parser
    (`pj` / `json_loads`) that mirrors the stdlib decoder: strict number
    grammar, the non-standard `NaN`/`Infinity` constants, string escapes,
    rejection of raw control characters, whitespace tolerance around the
    top-level value, duplicate object keys overwriting in place.
  * `Decimal(...)` construction from a string is `pyDecimal`
    (whitespace/underscore removal, sign, digits with optional point and
    exponent, `Infinity`/`NaN` special values).
  * `datetime.fromisoformat` is `fromisoformat`, covering the
    `YYYY-MM-DD[ HH:MM[:SS[.ffffff]]]` forms (no timezone suffix; no claim
    below depends on its edge behaviour).
  * Exceptions are `PyExc`, with the class hierarchy of
    `app/utils/exceptions.py` reflected in the `isinstance` helpers:
    `DocumentParsingError` and `LLMServiceError` are subclasses of
    `DocumentAnalysisError`.
-/

/-- Exact decimal numbers as produced by the json/Decimal pipeline:
`fin m e` denotes `m * 10 ^ e`; `inf` and `nan` mirror the special values
both `json.loads` and `Decimal` accept. -/
inductive PyDec where
  | fin (m : Int) (e : Int)
  | inf (neg : Bool)
  | nan

/-- Rational value of a finite decimal (`inf`/`nan` are mapped to 0; they
never occur in the exactness statements below). -/
def decToRat : PyDec → ℚ
  | .fin m e => (m : ℚ) * (10 : ℚ) ^ (e : ℤ)
  | .inf _ => 0
  | .nan => 0

/-- A `datetime.datetime` value (naive, as produced by
`datetime.fromisoformat` on the forms modelled here). -/
structure DTime where
  year : Nat
  month : Nat
  day : Nat
  hour : Nat
  minute : Nat
  second : Nat
  microsecond : Nat

/-- Python values that can appear in a parsed response record.
`json.loads` produces `none`, `bool`, `num`, `str`, `list`, `dict`;
the conversion steps of `_parse_response` additionally produce
`datetime` and `decimal`. -/
inductive PVal where
  | none
  | bool (b : Bool)
  | num (d : PyDec)
  | str (s : String)
  | datetime (t : DTime)
  | decimal (d : PyDec)
  | list (items : List PVal)
  | dict (fields : List (String × PVal))

/-- The exception classes of `app/utils/exceptions.py` (plus a catch-all
for arbitrary other Python exceptions).  `documentAnalysisError` is an
instance of exactly the base class `DocumentAnalysisError`, which is what
`_parse_response` raises for both of its content errors. -/
inductive PyExc where
  | documentAnalysisError (msg : String)
  | documentParsingError (msg : String)
  | llmServiceError (msg : String)
  | otherError (msg : String)

/-- `isinstance(e, DocumentParsingError)`. -/
def isDocumentParsingError : PyExc → Bool
  | .documentParsingError _ => true
  | _ => false

/-- `isinstance(e, LLMServiceError)`. -/
def isLLMServiceError : PyExc → Bool
  | .llmServiceError _ => true
  | _ => false

/-- `isinstance(e, DocumentAnalysisError)`: the two named subclasses are
also instances of the base class. -/
def isDocumentAnalysisError : PyExc → Bool
  | .documentAnalysisError _ => true
  | .documentParsingError _ => true
  | .llmServiceError _ => true
  | .otherError _ => false

/-- `str(exc)` for the exception classes above (all are constructed with a
single message argument). -/
def excMsg : PyExc → String
  | .documentAnalysisError m => m
  | .documentParsingError m => m
  | .llmServiceError m => m
  | .otherError m => m

/- Character classes and Python string primitives (on `List Char`). -/

/-- The whitespace accepted by the JSON grammar. -/
def isJsonWs (c : Char) : Bool :=
  c = ' ' || c = '\t' || c = '\n' || c = '\r'

/-- Whitespace removed by Python `str.strip()` (the ASCII part; the claims
never exercise non-ASCII whitespace). -/
def isPyWs (c : Char) : Bool :=
  isJsonWs c || c = '\x0b' || c = '\x0c'

def isDigitCh (c : Char) : Bool :=
  '0' ≤ c && c ≤ '9'

/-- Drop matching characters from the end of a list. -/
def dropTrailing (p : Char → Bool) (l : List Char) : List Char :=
  (l.reverse.dropWhile p).reverse

/-- Python `str.strip()`. -/
def pyStrip (l : List Char) : List Char :=
  dropTrailing isPyWs (l.dropWhile isPyWs)

/-- Removal of leading and trailing JSON whitespace, as `json.loads`
performs around the top-level value. -/
def jsonTrim (l : List Char) : List Char :=
  dropTrailing isJsonWs (l.dropWhile isJsonWs)

/-- Python `str.startswith`. -/
def startsWithL (l p : List Char) : Bool :=
  p.isPrefixOf l

/-- Python `str.endswith`. -/
def endsWithL (l p : List Char) : Bool :=
  p.reverse.isPrefixOf l.reverse

/- The `json.loads` model. -/

def hexVal (c : Char) : Option Nat :=
  if isDigitCh c then some (c.toNat - 48)
  else if 'a' ≤ c && c ≤ 'f' then some (c.toNat - 87)
  else if 'A' ≤ c && c ≤ 'F' then some (c.toNat - 70)
  else Option.none

def digitsToNat (ds : List Char) : Nat :=
  ds.foldl (fun a c => a * 10 + (c.toNat - 48)) 0

/-- Scan a JSON string literal body (the opening quote already consumed),
accumulating decoded characters.  Mirrors the stdlib scanner: the usual
escapes, `\uXXXX` (surrogate pairs combined; a lone surrogate — which Lean
`Char` cannot hold — is mapped to U+FFFD, a corner no claim touches), and
rejection of raw control characters below U+0020. -/
def scanJString : Nat → List Char → List Char → Option (String × List Char)
  | 0, _, _ => Option.none
  | _ + 1, _, [] => Option.none
  | fuel + 1, acc, c :: rest =>
    if c = '"' then some (String.mk acc.reverse, rest)
    else if c = '\\' then
      match rest with
      | [] => Option.none
      | e :: rest2 =>
        if e = '"' then scanJString fuel ('"' :: acc) rest2
        else if e = '\\' then scanJString fuel ('\\' :: acc) rest2
        else if e = '/' then scanJString fuel ('/' :: acc) rest2
        else if e = 'b' then scanJString fuel ('\x08' :: acc) rest2
        else if e = 'f' then scanJString fuel ('\x0c' :: acc) rest2
        else if e = 'n' then scanJString fuel ('\n' :: acc) rest2
        else if e = 'r' then scanJString fuel ('\r' :: acc) rest2
        else if e = 't' then scanJString fuel ('\t' :: acc) rest2
        else if e = 'u' then
          match rest2 with
          | h1 :: h2 :: h3 :: h4 :: rest3 =>
            match hexVal h1, hexVal h2, hexVal h3, hexVal h4 with
            | some a, some b, some c3, some d =>
              let code := ((a * 16 + b) * 16 + c3) * 16 + d
              if 0xD800 ≤ code && code < 0xDC00 then
                match rest3 with
                | '\\' :: 'u' :: k1 :: k2 :: k3 :: k4 :: rest4 =>
                  match hexVal k1, hexVal k2, hexVal k3, hexVal k4 with
                  | some a2, some b2, some c2, some d2 =>
                    let low := ((a2 * 16 + b2) * 16 + c2) * 16 + d2
                    if 0xDC00 ≤ low && low < 0xE000 then
                      let combined := 0x10000 + (code - 0xD800) * 0x400 + (low - 0xDC00)
                      scanJString fuel (Char.ofNat combined :: acc) rest4
                    else scanJString fuel ('�' :: acc) rest3
                  | _, _, _, _ => scanJString fuel ('�' :: acc) rest3
                | _ => scanJString fuel ('�' :: acc) rest3
              else if 0xDC00 ≤ code && code < 0xE000 then
                scanJString fuel ('�' :: acc) rest3
              else
                scanJString fuel (Char.ofNat code :: acc) rest3
            | _, _, _, _ => Option.none
          | _ => Option.none
        else Option.none
    else if c.toNat < 0x20 then Option.none
    else scanJString fuel (c :: acc) rest

/-- Exponent suffix of a JSON number: `[eE][-+]?digits`; when the suffix
does not match, the number ends before it (as with the stdlib regex). -/
def scanJExp (l : List Char) : Int × List Char :=
  match l with
  | c :: rest =>
    if c = 'e' || c = 'E' then
      let (sgn, rest2) :=
        match rest with
        | '+' :: r => ((1 : Int), r)
        | '-' :: r => ((-1 : Int), r)
        | _ => ((1 : Int), rest)
      let (ds, rest3) := rest2.span isDigitCh
      if ds.isEmpty then (0, l) else (sgn * (digitsToNat ds : Int), rest3)
    else (0, l)
  | [] => (0, l)

/-- A JSON number after the optional sign: `(0|[1-9][0-9]*)(\.[0-9]+)?(exp)?`,
greedy exactly as the stdlib regex (so `01` lexes as `0` with remainder
`1`, and `1.` lexes as `1` with remainder `.`). -/
def scanJNumCore (l : List Char) : Option (PyDec × List Char) :=
  match l with
  | c :: rest =>
    if ¬ isDigitCh c then Option.none
    else
      let (ipart, l2) := if c = '0' then (['0'], rest) else l.span isDigitCh
      let (fpart, l3) :=
        match l2 with
        | '.' :: r2 =>
          let (fds, l3') := r2.span isDigitCh
          if fds.isEmpty then (([] : List Char), l2) else (fds, l3')
        | _ => (([] : List Char), l2)
      let (expv, l4) := scanJExp l3
      some (PyDec.fin (digitsToNat (ipart ++ fpart) : Int) (expv - (fpart.length : Int)), l4)
  | [] => Option.none

/-- Association-list insert with dict semantics: an existing key is
overwritten in place, a new key is appended (Python dicts keep the first
insertion position on overwrite). -/
def objInsert (fields : List (String × PVal)) (k : String) (v : PVal) :
    List (String × PVal) :=
  match fields with
  | [] => [(k, v)]
  | (k0, v0) :: rest =>
    if k0 = k then (k0, v) :: rest else (k0, v0) :: objInsert rest k v

/-- Parsing mode: a top-level value, the members of an object being
collected, or the items of an array being collected. -/
inductive PTask where
  | val
  | members (acc : List (String × PVal))
  | items (acc : List PVal)

/-- The recursive-descent core of `json.loads`.  Callers ensure leading
whitespace is consumed before a `.val` call; `.members`/`.items` loop over
object members and array items. -/
def pj : Nat → PTask → List Char → Option (PVal × List Char)
  | 0, _, _ => Option.none
  | fuel + 1, .val, l =>
    match l with
    | [] => Option.none
    | '"' :: r => (scanJString (r.length + 1) [] r).map (fun p => (PVal.str p.1, p.2))
    | '{' :: r =>
      let r1 := r.dropWhile isJsonWs
      match r1 with
      | '}' :: r2 => some (PVal.dict [], r2)
      | _ => pj fuel (.members []) r1
    | '[' :: r =>
      let r1 := r.dropWhile isJsonWs
      match r1 with
      | ']' :: r2 => some (PVal.list [], r2)
      | _ => pj fuel (.items []) r1
    | 'n' :: r =>
      if startsWithL r "ull".data then some (PVal.none, r.drop 3) else Option.none
    | 't' :: r =>
      if startsWithL r "rue".data then some (PVal.bool true, r.drop 3) else Option.none
    | 'f' :: r =>
      if startsWithL r "alse".data then some (PVal.bool false, r.drop 4) else Option.none
    | 'N' :: r =>
      if startsWithL r "aN".data then some (PVal.num PyDec.nan, r.drop 2) else Option.none
    | 'I' :: r =>
      if startsWithL r "nfinity".data then some (PVal.num (PyDec.inf false), r.drop 7)
      else Option.none
    | '-' :: r =>
      if startsWithL r "Infinity".data then some (PVal.num (PyDec.inf true), r.drop 8)
      else
        (scanJNumCore r).map (fun p =>
          match p.1 with
          | PyDec.fin m e => (PVal.num (PyDec.fin (-m) e), p.2)
          | d => (PVal.num d, p.2))
    | c :: _ =>
      if isDigitCh c then (scanJNumCore l).map (fun p => (PVal.num p.1, p.2))
      else Option.none
  | fuel + 1, .members acc, l =>
    match l with
    | '"' :: r =>
      match scanJString (r.length + 1) [] r with
      | Option.none => Option.none
      | some (k, r2) =>
        match r2.dropWhile isJsonWs with
        | ':' :: r3 =>
          match pj fuel .val (r3.dropWhile isJsonWs) with
          | Option.none => Option.none
          | some (v, r4) =>
            let acc' := objInsert acc k v
            match r4.dropWhile isJsonWs with
            | ',' :: r5 => pj fuel (.members acc') (r5.dropWhile isJsonWs)
            | '}' :: r5 => some (PVal.dict acc', r5)
            | _ => Option.none
        | _ => Option.none
    | _ => Option.none
  | fuel + 1, .items acc, l =>
    match pj fuel .val l with
    | Option.none => Option.none
    | some (v, r) =>
      match r.dropWhile isJsonWs with
      | ',' :: r2 => pj fuel (.items (acc ++ [v])) (r2.dropWhile isJsonWs)
      | ']' :: r2 => some (PVal.list (acc ++ [v]), r2)
      | _ => Option.none

/-- `json.loads`: whitespace is tolerated around the top-level value and
nothing else may follow it. -/
def json_loads (l : List Char) : Option PVal :=
  let t := jsonTrim l
  match pj (t.length + 1) .val t with
  | some (v, []) => some v
  | _ => Option.none

/- The `Decimal` and `datetime.fromisoformat` models. -/

/-- Python `Decimal(string)`: leading/trailing whitespace and underscores
are removed, then an optional sign followed by either a special value
(`Inf`/`Infinity`/`NaN`/`sNaN`, case-insensitive, `NaN` with optional
diagnostic digits) or a numeric string `digits [. digits] [exponent]` with
at least one digit; anything else raises (modelled as `Option.none`). -/
def pyDecimal (s : String) : Option PyDec :=
  let l0 := (pyStrip s.data).filter (fun c => c ≠ '_')
  let (neg, l1) :=
    match l0 with
    | '+' :: r => (false, r)
    | '-' :: r => (true, r)
    | _ => (false, l0)
  let low := l1.map Char.toLower
  if low = "inf".data || low = "infinity".data then some (PyDec.inf neg)
  else if startsWithL low "nan".data && (low.drop 3).all isDigitCh then some PyDec.nan
  else if startsWithL low "snan".data && (low.drop 4).all isDigitCh then some PyDec.nan
  else
    let (ipart, l2) := l1.span isDigitCh
    let (fpart, l3) :=
      match l2 with
      | '.' :: r =>
        let (fds, l3') := r.span isDigitCh
        (fds, l3')
      | _ => (([] : List Char), l2)
    let (expv, l4) := scanJExp l3
    if l4.isEmpty && ¬ (ipart ++ fpart).isEmpty then
      let m : Int := (if neg then -1 else 1) * (digitsToNat (ipart ++ fpart) : Int)
      some (PyDec.fin m (expv - (fpart.length : Int)))
    else Option.none

/-- Exactly `n` decimal digits. -/
def parseNDigits (n : Nat) (l : List Char) : Option (Nat × List Char) :=
  let taken := l.take n
  if taken.length = n && taken.all isDigitCh then some (digitsToNat taken, l.drop n)
  else Option.none

def daysInMonth (y m : Nat) : Nat :=
  if m = 2 then (if (y % 4 = 0 && y % 100 ≠ 0) || y % 400 = 0 then 29 else 28)
  else if m = 4 || m = 6 || m = 9 || m = 11 then 30
  else 31

/-- Time-of-day suffix `HH:MM[:SS[.f{1..6}]]` of an ISO string. -/
def parseTimePart (y mo d : Nat) (l : List Char) : Option DTime :=
  match parseNDigits 2 l with
  | some (h, ':' :: r1) =>
    (match parseNDigits 2 r1 with
     | some (mi, rest) =>
       if h < 24 && mi < 60 then
         match rest with
         | [] => some ⟨y, mo, d, h, mi, 0, 0⟩
         | ':' :: r2 =>
           (match parseNDigits 2 r2 with
            | some (sec, rest2) =>
              if sec < 60 then
                match rest2 with
                | [] => some ⟨y, mo, d, h, mi, sec, 0⟩
                | '.' :: r3 =>
                  let (fds, r4) := r3.span isDigitCh
                  if r4.isEmpty && 1 ≤ fds.length && fds.length ≤ 6 then
                    some ⟨y, mo, d, h, mi, sec, digitsToNat fds * 10 ^ (6 - fds.length)⟩
                  else Option.none
                | _ => Option.none
              else Option.none
            | _ => Option.none)
         | _ => Option.none
       else Option.none
     | _ => Option.none)
  | _ => Option.none

/-- `datetime.fromisoformat` on the forms the analyzers produce:
`YYYY-MM-DD` optionally followed by `T` or a space and a time of day.
(The claims below never depend on its edge behaviour.) -/
def fromisoformat (s : String) : Option DTime :=
  let l := s.data
  match parseNDigits 4 l with
  | some (y, '-' :: r1) =>
    (match parseNDigits 2 r1 with
     | some (mo, '-' :: r2) =>
       (match parseNDigits 2 r2 with
        | some (d, rest) =>
          if 1 ≤ mo && mo ≤ 12 && 1 ≤ d && d ≤ daysInMonth y mo then
            match rest with
            | [] => some ⟨y, mo, d, 0, 0, 0, 0⟩
            | sep :: r3 =>
              if sep = 'T' || sep = ' ' then parseTimePart y mo d r3 else Option.none
          else Option.none
        | _ => Option.none)
     | _ => Option.none)
  | _ => Option.none

/-- Rendering of a decimal as a literal that `Decimal` reparses to the same
exact value (`mEe`).  Python's `str(float)`/`str(Decimal)` choose different
surface forms (shortest repr, scientific thresholds), but `Decimal` accepts
all of them and only the exact value is ever consumed downstream. -/
def decStr : PyDec → String
  | .fin m e => toString m ++ "E" ++ toString e
  | .inf true => "-inf"
  | .inf false => "inf"
  | .nan => "nan"

/-- Python `str(x)` for the values an `amount` field can hold.  For lists
and dicts only the fact that `Decimal` rejects the repr matters (it starts
with a bracket or brace); `str(datetime)` is never consulted by
`_parse_response`. -/
def pyStr : PVal → String
  | .none => "None"
  | .bool true => "True"
  | .bool false => "False"
  | .num d => decStr d
  | .str s => s
  | .datetime _ => "datetime"
  | .decimal d => decStr d
  | .list _ => "[...]"
  | .dict _ => "\x7b...\x7d"

/- The response parser (`PDFAnalyzerBase._parse_response`). -/

/-- A parsed response record: the Python dict `_parse_response` returns. -/
abbrev PRec := List (String × PVal)

def fence_json : List Char := "```json".data

def fence_ticks : List Char := "```".data

/-- First clean-up `if` of `_parse_response`: drop a leading
```` ```json ```` marker (7 characters) when present. -/
def stripLeadingFence (t : List Char) : List Char :=
  if startsWithL t fence_json then t.drop 7 else t

/-- Second clean-up `if` of `_parse_response`: drop a trailing
```` ``` ```` when present. -/
def stripTrailingFence (t : List Char) : List Char :=
  if endsWithL t fence_ticks then t.take (t.length - 3) else t

/-- The markdown clean-up of `_parse_response`: `strip()`, then the two
fence-removal steps in order. -/
def strip_markdown (l : List Char) : List Char :=
  stripTrailingFence (stripLeadingFence (pyStrip l))

def useful_fields : List String :=
  ["document_number", "document_date", "sender", "purpose", "amount"]

/-- `data.get(k)`: `Option.none` when the key is absent. -/
def recGet (r : PRec) (k : String) : Option PVal :=
  match r with
  | [] => Option.none
  | (k0, v) :: rest => if k0 = k then some v else recGet rest k

/-- `data.get(k) is not None`. -/
def getNotNone (r : PRec) (k : String) : Bool :=
  match recGet r k with
  | some PVal.none => false
  | some _ => true
  | Option.none => false

/-- The usefulness check of `_parse_response`: at least one of the five
known fields is present and non-null. -/
def has_useful_info (r : PRec) : Bool :=
  useful_fields.any (getNotNone r)

/-- `data[k] = v` for a key already present (the parser only assigns to
keys it has just read); on an absent key the record is unchanged. -/
def recSet (r : PRec) (k : String) (v : PVal) : PRec :=
  match r with
  | [] => []
  | (k0, v0) :: rest => if k0 = k then (k0, v) :: rest else (k0, v0) :: recSet rest k v

/-- Python truthiness of the values in a record. -/
def pvTruthy : PVal → Bool
  | .none => false
  | .bool b => b
  | .num (PyDec.fin m _) => m != 0
  | .num _ => true
  | .str s => !s.isEmpty
  | .datetime _ => true
  | .decimal (PyDec.fin m _) => m != 0
  | .decimal _ => true
  | .list items => !items.isEmpty
  | .dict fields => !fields.isEmpty

/-- The date conversion step: when `document_date` is truthy and a string,
replace it by the parsed datetime, degrading to null when
`fromisoformat` raises. -/
def convert_date (r : PRec) : PRec :=
  match recGet r "document_date" with
  | some v =>
    if pvTruthy v then
      match v with
      | PVal.str s =>
        recSet r "document_date"
          (match fromisoformat s with
           | some t => PVal.datetime t
           | Option.none => PVal.none)
      | _ => r
    else r
  | Option.none => r

/-- The amount conversion step: when `amount` is present and not null,
replace it by `Decimal(str(amount))`, degrading to null when the
conversion raises. -/
def convert_amount (r : PRec) : PRec :=
  match recGet r "amount" with
  | some PVal.none => r
  | some v =>
    recSet r "amount"
      (match pyDecimal (pyStr v) with
       | some d => PVal.decimal d
       | Option.none => PVal.none)
  | Option.none => r

def emptyMsg : String := "Документ не содержит необходимой информации"

def malformedMsg : String := "Невозможно распознать структуру документа"

def processErrMsg : String := "Ошибка при обработке результата анализа"

/-- `PDFAnalyzerBase._parse_response`: markdown clean-up, `json.loads`
(a decode failure becomes the malformed-structure `DocumentAnalysisError`),
the usefulness check (failure becomes the no-useful-information
`DocumentAnalysisError`), then the date and amount conversions.  A loaded
value that is not a dict makes `data.get` raise `AttributeError`, which the
final handler converts to the generic processing `DocumentAnalysisError`. -/
def parse_response_core (l : List Char) : Except PyExc PRec :=
  match json_loads (strip_markdown l) with
  | Option.none => .error (.documentAnalysisError malformedMsg)
  | some (PVal.dict fields) =>
    if has_useful_info fields then .ok (convert_amount (convert_date fields))
    else .error (.documentAnalysisError emptyMsg)
  | some _ => .error (.documentAnalysisError processErrMsg)

/-- `_parse_response` on a Lean string. -/
def parse_response (s : String) : Except PyExc PRec :=
  parse_response_core s.data

/-- A raw response wrapped in a tagged markdown fence:
```` ```json ````, newline, the payload, newline, ```` ``` ````. -/
def wrap_fenced (j : List Char) : List Char :=
  "```json\n".data ++ j ++ "\n```".data

/- The fallback orchestrator (`LangGraphPDFAnalyzer`). -/

/-- A backend's `analyze_document`: the raw behaviour of
`PDFLLMAnalyzer`/`PDFMistralAnalyzer` on a given document text — either a
parsed record or a raised exception (`LLMServiceError` for service
failures, `_parse_response` content errors, or anything else). -/
abbrev Backend := String → Except PyExc PRec

/-- The graph state (`AnalyzerState`): `fallback_needed` defaults to false
and `analyze_document` enters the graph with only `text` set. -/
structure AnalyzerState where
  text : String
  result : Option PRec := Option.none
  error : Option String := Option.none
  fallback_needed : Bool := false

def allBackendsDownMsg : String := "Оба LLM‑сервиса недоступны. Попробуйте позже."

/-- `LangGraphPDFAnalyzer._ollama_node`: invoke the primary backend;
re-raise `DocumentParsingError`; on `LLMServiceError` or any other
exception record the error and request fallback. -/
def ollama_node (ollama : Backend) (st : AnalyzerState) : Except PyExc AnalyzerState :=
  match ollama st.text with
  | .ok r => .ok { st with result := some r, fallback_needed := false }
  | .error exc =>
    if isDocumentParsingError exc then .error exc
    else .ok { st with result := Option.none, error := some (excMsg exc), fallback_needed := true }

/-- `LangGraphPDFAnalyzer._mistral_node`: same handling for the secondary
backend. -/
def mistral_node (mistral : Backend) (st : AnalyzerState) : Except PyExc AnalyzerState :=
  match mistral st.text with
  | .ok r => .ok { st with result := some r, fallback_needed := false }
  | .error exc =>
    if isDocumentParsingError exc then .error exc
    else .ok { st with result := Option.none, error := some (excMsg exc), fallback_needed := true }

/-- `LangGraphPDFAnalyzer._final_node`: return the result when present,
otherwise raise the both-services-down `LLMServiceError`. -/
def final_node (st : AnalyzerState) : Except PyExc AnalyzerState :=
  match st.result with
  | some r => .ok { st with result := some r }
  | Option.none => .error (.llmServiceError allBackendsDownMsg)

/-- The conditional routing after the ollama node
(`_route_from_ollama`). -/
def route_from_ollama (st : AnalyzerState) : String :=
  if st.fallback_needed then "mistral" else "final"

/-- Which backend a graph node invoked, in execution order. -/
inductive BackendCall where
  | primary
  | secondary

/-- `result_state["result"]` at the end of `analyze_document` (the final
node guarantees the key is a present record on every `.ok` path). -/
def pluckResult (st : AnalyzerState) : Except PyExc PRec :=
  match st.result with
  | some r => .ok r
  | Option.none => .error (.otherError "KeyError: result")

/-- `LangGraphPDFAnalyzer.analyze_document`: run the compiled graph —
entry point `ollama`, conditional edge to `mistral` or `final`, and the
unconditional edge `mistral → final` — and read `result` off the final
state.  The second component records which backends were invoked, in
order. -/
def langgraph_analyze_document (ollama mistral : Backend) (text : String) :
    Except PyExc PRec × List BackendCall :=
  let st0 : AnalyzerState := { text := text }
  match ollama_node ollama st0 with
  | .error exc => (.error exc, [.primary])
  | .ok st1 =>
    if route_from_ollama st1 = "mistral" then
      match mistral_node mistral st1 with
      | .error exc => (.error exc, [.primary, .secondary])
      | .ok st2 =>
        match final_node st2 with
        | .error exc => (.error exc, [.primary, .secondary])
        | .ok st3 => (pluckResult st3, [.primary, .secondary])
    else
      match final_node st1 with
      | .error exc => (.error exc, [.primary])
      | .ok st3 => (pluckResult st3, [.primary])

/- The document processing pipeline (`DocumentProcessor.process_document`). -/

/-- A raised `fastapi.HTTPException`. -/
structure HTTPExc where
  status_code : Nat
  detail : String

/-- The externally visible side effects of one pipeline run, in order:
the upload being written to disk, its later removal, and the database
commit of the new record. -/
inductive FsEvent where
  | saved
  | removed
  | dbCommitted

/-- The `Document` row created on success, with the five extracted fields
read off the analyzer's record via `.get` (absent keys become null). -/
structure DocumentRow where
  document_number : PVal
  document_date : PVal
  sender : PVal
  purpose : PVal
  amount : PVal
  file_path : String
  user_id : Nat

/-- `extracted_data.get(k)` as used when building the `Document` row. -/
def pyGet (r : PRec) (k : String) : PVal :=
  match recGet r k with
  | some v => v
  | Option.none => PVal.none

/-- `DocumentProcessor.process_document`: MIME validation, file save,
text extraction (any failure removes the file and surfaces a 400),
analysis (a `DocumentAnalysisError` — including its subclasses — removes
the file and surfaces a 400 with the exception text; any other exception
removes the file and surfaces a 500), then the database record.  The
collaborators (saving, extraction, the analyzer) are parameters; the
event list records the file-system and database effects in order. -/
def process_document (content_type : String) (save : Except String Unit)
    (extract_text : Except String String) (analyzer : String → Except PyExc PRec)
    (file_path : String) (user_id : Nat) :
    Except HTTPExc DocumentRow × List FsEvent :=
  if ¬ startsWithL content_type.data "application/pdf".data then
    (.error ⟨400, "Допустима загрузка только PDF‑файлов"⟩, [])
  else
    match save with
    | .error exc => (.error ⟨500, "Ошибка при сохранении файла: " ++ exc⟩, [])
    | .ok _ =>
      match extract_text with
      | .error exc =>
        (.error ⟨400, "Не удалось извлечь текст из PDF: " ++ exc⟩, [.saved, .removed])
      | .ok text_content =>
        match analyzer text_content with
        | .error exc =>
          if isDocumentAnalysisError exc then
            (.error ⟨400, excMsg exc⟩, [.saved, .removed])
          else
            (.error ⟨500, "Ошибка анализа документа: " ++ excMsg exc⟩, [.saved, .removed])
        | .ok extracted_data =>
          (.ok { document_number := pyGet extracted_data "document_number"
                 document_date := pyGet extracted_data "document_date"
                 sender := pyGet extracted_data "sender"
                 purpose := pyGet extracted_data "purpose"
                 amount := pyGet extracted_data "amount"
                 file_path := file_path
                 user_id := user_id },
           [.saved, .dbCommitted])

/- Helper lemmas about records and the conversion steps. -/

theorem recSet_keys (r : PRec) (k : String) (v : PVal) :
    (recSet r k v).map Prod.fst = r.map Prod.fst := by
  induction r with
  | nil => rfl
  | cons p rest ih =>
    obtain ⟨k0, v0⟩ := p
    simp only [recSet]
    split <;> simp [ih]

theorem recGet_recSet_ne (r : PRec) (k k' : String) (v : PVal) (h : k' ≠ k) :
    recGet (recSet r k v) k' = recGet r k' := by
  induction r with
  | nil => rfl
  | cons p rest ih =>
    obtain ⟨k0, v0⟩ := p
    simp only [recSet]
    by_cases h0 : k0 = k
    · subst h0
      simp only [if_pos rfl, recGet]
      rw [if_neg (fun hk => h hk.symm), if_neg (fun hk => h hk.symm)]
    · simp only [if_neg h0, recGet]
      split
      · rfl
      · exact ih

theorem recGet_recSet_self (r : PRec) (k : String) (v w : PVal)
    (h : recGet r k = some w) : recGet (recSet r k v) k = some v := by
  induction r with
  | nil => simp [recGet] at h
  | cons p rest ih =>
    obtain ⟨k0, v0⟩ := p
    simp only [recSet, recGet] at h ⊢
    by_cases h0 : k0 = k
    · simp [h0, recGet]
    · simp only [if_neg h0] at h ⊢
      simp only [recGet]
      rw [if_neg h0]
      exact ih h

theorem convert_date_keys (r : PRec) :
    (convert_date r).map Prod.fst = r.map Prod.fst := by
  unfold convert_date
  split
  · split
    · split
      · exact recSet_keys r _ _
      · rfl
    · rfl
  · rfl

theorem convert_amount_keys (r : PRec) :
    (convert_amount r).map Prod.fst = r.map Prod.fst := by
  unfold convert_amount
  split
  · rfl
  · exact recSet_keys r _ _
  · rfl

theorem recGet_convert_date (r : PRec) (k : String) (h : k ≠ "document_date") :
    recGet (convert_date r) k = recGet r k := by
  unfold convert_date
  split
  · split
    · split
      · exact recGet_recSet_ne r _ k _ h
      · rfl
    · rfl
  · rfl

/- Claim theorems. -/

/-- Claim C1 (code bug): contrary to the claim (and to the module's own
docstrings), a content error from the primary backend — the base-class
`DocumentAnalysisError` that `_parse_response` raises when extraction is
empty — is not re-raised by `_ollama_node` (which only re-raises the
`DocumentParsingError` subclass) but falls into the generic handler, so
the orchestrator does invoke the secondary backend and can even return a
record for a document the primary declared content-free. -/
theorem C1_content_error_causes_fallback :
    langgraph_analyze_document
      (fun _ => .error (.documentAnalysisError emptyMsg))
      (fun _ => .ok [("sender", PVal.str "ООО Ромашка")])
      "doc text"
    = (.ok [("sender", PVal.str "ООО Ромашка")], [.primary, .secondary]) := rfl

/-- Claim C2 (counterexample): a response whose only field is an amount
that fails decimal conversion parses successfully to a record in which all
five known fields are null/absent — the returned record itself fails the
parser's own usefulness check. -/
theorem C2_counterexample :
    parse_response "\x7b\"amount\": \"abc\"\x7d" = .ok [("amount", PVal.none)] ∧
    has_useful_info [("amount", PVal.none)] = false := ⟨rfl, rfl⟩

/-- Claim C6 (counterexample): when the analyzer raises the
both-services-down `LLMServiceError`, the pipeline surfaces HTTP 400 —
the very same bad-request category it uses for a content error — because
`LLMServiceError` is a subclass of `DocumentAnalysisError`; cleanup does
run in both cases. -/
theorem C6_counterexample :
    process_document "application/pdf" (.ok ()) (.ok "doc text")
      (fun _ => .error (.llmServiceError allBackendsDownMsg)) "uploads/f.pdf" 1
      = (.error ⟨400, allBackendsDownMsg⟩, [.saved, .removed]) ∧
    process_document "application/pdf" (.ok ()) (.ok "doc text")
      (fun _ => .error (.documentAnalysisError emptyMsg)) "uploads/f.pdf" 1
      = (.error ⟨400, emptyMsg⟩, [.saved, .removed]) := ⟨rfl, rfl⟩

/-- Claim C7 (counterexample): the record returned by the parser keeps the
extra key `extra` and does not contain the missing key
`document_number` at all, contrary to the claimed exactly-five-keys
shape. -/
theorem C7_counterexample :
    parse_response "\x7b\"sender\": \"A\", \"extra\": 1\x7d"
      = .ok [("sender", PVal.str "A"), ("extra", PVal.num (PyDec.fin 1 0))] ∧
    recGet [("sender", PVal.str "A"), ("extra", PVal.num (PyDec.fin 1 0))]
      "document_number" = Option.none := ⟨rfl, rfl⟩

/-- Claim C10: the parser strips a leading fence only for the exact
tagged marker, so valid JSON wrapped in plain untagged triple backticks
raises the malformed-structure error, while the same JSON unwrapped
parses fine. -/
theorem C10_untagged_fence :
    parse_response "```\n\x7b\"sender\": \"A\"\x7d\n```"
      = .error (.documentAnalysisError malformedMsg) ∧
    parse_response "\x7b\"sender\": \"A\"\x7d" = .ok [("sender", PVal.str "A")] :=
  ⟨rfl, rfl⟩

/-- Claim C3: when the primary and the secondary backend both raise
`LLMServiceError` on the document text, `analyze_document` raises the
both-services-down `LLMServiceError` — a service-level failure, not a
content error and not a record. -/
theorem C3_exhaustion (ollama mistral : Backend) (text m1 m2 : String)
    (h1 : ollama text = .error (.llmServiceError m1))
    (h2 : mistral text = .error (.llmServiceError m2)) :
    (langgraph_analyze_document ollama mistral text).1
      = .error (.llmServiceError allBackendsDownMsg) := by
  simp [langgraph_analyze_document, ollama_node, mistral_node, final_node,
        route_from_ollama, pluckResult, h1, h2, isDocumentParsingError]

/-- Witness for C3 at concrete backends. -/
theorem C3_witness :
    (langgraph_analyze_document (fun _ => .error (.llmServiceError "down1"))
      (fun _ => .error (.llmServiceError "down2")) "doc").1
      = .error (.llmServiceError allBackendsDownMsg) :=
  C3_exhaustion _ _ "doc" "down1" "down2" rfl rfl

/-- Claim C4: when the primary backend raises `LLMServiceError` and the
secondary returns a record, `analyze_document` returns exactly that
record, and the invocation trace is exactly one primary call strictly
followed by exactly one secondary call. -/
theorem C4_fallback_order (ollama mistral : Backend) (text m : String) (r : PRec)
    (h1 : ollama text = .error (.llmServiceError m))
    (h2 : mistral text = .ok r) :
    langgraph_analyze_document ollama mistral text = (.ok r, [.primary, .secondary]) := by
  simp [langgraph_analyze_document, ollama_node, mistral_node, final_node,
        route_from_ollama, pluckResult, h1, h2, isDocumentParsingError]

/-- Witness for C4 at concrete backends. -/
theorem C4_witness :
    langgraph_analyze_document (fun _ => .error (.llmServiceError "down"))
      (fun _ => .ok [("sender", PVal.str "B")]) "doc"
      = (.ok [("sender", PVal.str "B")], [.primary, .secondary]) :=
  C4_fallback_order _ _ "doc" "down" [("sender", PVal.str "B")] rfl rfl

/-- Claim C5: in a pipeline run whose upload was saved successfully, a
text-extraction failure or an analysis failure of any kind removes the
saved file before the error is surfaced (the event trace is save followed
by removal, with no database commit), while on full success the file
persists and the database record is committed. -/
theorem C5_cleanup (content_type : String) (extract_text : Except String String)
    (analyzer : String → Except PyExc PRec) (fp : String) (uid : Nat)
    (hct : startsWithL content_type.data "application/pdf".data = true) :
    (∀ e, extract_text = .error e →
      (process_document content_type (.ok ()) extract_text analyzer fp uid).2
          = [.saved, .removed] ∧
      ∃ h, (process_document content_type (.ok ()) extract_text analyzer fp uid).1
          = .error h) ∧
    (∀ t exc, extract_text = .ok t → analyzer t = .error exc →
      (process_document content_type (.ok ()) extract_text analyzer fp uid).2
          = [.saved, .removed] ∧
      ∃ h, (process_document content_type (.ok ()) extract_text analyzer fp uid).1
          = .error h) ∧
    (∀ t r, extract_text = .ok t → analyzer t = .ok r →
      (process_document content_type (.ok ()) extract_text analyzer fp uid).2
          = [.saved, .dbCommitted] ∧
      ∃ doc, (process_document content_type (.ok ()) extract_text analyzer fp uid).1
          = .ok doc) := by
  refine ⟨?_, ?_, ?_⟩
  · intro e he
    subst he
    simp [process_document, hct]
  · intro t exc het ha
    subst het
    by_cases hd : isDocumentAnalysisError exc
    · simp [process_document, hct, ha, hd]
    · simp [process_document, hct, ha, hd]
  · intro t r het ha
    subst het
    simp [process_document, hct, ha]

/-- Witness for C5 at a concrete failing and a concrete succeeding run. -/
theorem C5_witness :
    (process_document "application/pdf" (.ok ()) (.error "bad pdf")
        (fun _ => .ok [("sender", PVal.str "B")]) "f.pdf" 1).2 = [.saved, .removed] ∧
    (process_document "application/pdf" (.ok ()) (.ok "doc")
        (fun _ => .ok [("sender", PVal.str "B")]) "f.pdf" 1).2 = [.saved, .dbCommitted] :=
  ⟨((C5_cleanup "application/pdf" (.error "bad pdf")
      (fun _ => .ok [("sender", PVal.str "B")]) "f.pdf" 1 rfl).1 "bad pdf" rfl).1,
   ((C5_cleanup "application/pdf" (.ok "doc")
      (fun _ => .ok [("sender", PVal.str "B")]) "f.pdf" 1 rfl).2.2 "doc"
      [("sender", PVal.str "B")] rfl rfl).1⟩

/-- Claim C6 (amended): a both-backends-exhausted `LLMServiceError` from
the analyzer is surfaced by the pipeline as HTTP 400 — the same client
bad-request category used for content errors, because `LLMServiceError`
subclasses `DocumentAnalysisError` — after the saved file is removed. -/
theorem C6_amended_status400 (content_type t fp : String) (uid : Nat)
    (analyzer : String → Except PyExc PRec) (m : String)
    (hct : startsWithL content_type.data "application/pdf".data = true)
    (ha : analyzer t = .error (.llmServiceError m)) :
    process_document content_type (.ok ()) (.ok t) analyzer fp uid
      = (.error ⟨400, m⟩, [.saved, .removed]) := by
  simp [process_document, hct, ha, isDocumentAnalysisError, excMsg]

/-- Witness for C6 at a concrete run. -/
theorem C6_witness :
    process_document "application/pdf" (.ok ()) (.ok "doc")
      (fun _ => .error (.llmServiceError allBackendsDownMsg)) "f.pdf" 1
      = (.error ⟨400, allBackendsDownMsg⟩, [.saved, .removed]) :=
  C6_amended_status400 "application/pdf" "doc" "f.pdf" 1 _ allBackendsDownMsg rfl rfl

/-- Claim C2 (amended): whenever the parser returns a record, the loaded
response object had at least one of the five known fields non-null at
validation time, and a response object with all five null/absent always
raises the no-useful-information error — but the later conversions may
degrade the returned record to all-null (see the counterexample). -/
theorem C2_amended_usefulness (l : List Char) :
    (∀ r, parse_response_core l = .ok r →
      ∃ fields, json_loads (strip_markdown l) = some (PVal.dict fields) ∧
        has_useful_info fields = true) ∧
    (∀ fields, json_loads (strip_markdown l) = some (PVal.dict fields) →
      has_useful_info fields = false →
      parse_response_core l = .error (.documentAnalysisError emptyMsg)) := by
  constructor
  · intro r h
    unfold parse_response_core at h
    cases hj : json_loads (strip_markdown l) with
    | none => rw [hj] at h; exact absurd h (by simp)
    | some v =>
      rw [hj] at h
      cases v with
      | dict fields =>
        refine ⟨fields, rfl, ?_⟩
        by_contra hu
        rw [Bool.not_eq_true] at hu
        simp [hu] at h
      | none => simp at h
      | bool b => simp at h
      | num d => simp at h
      | str s => simp at h
      | datetime t => simp at h
      | decimal d => simp at h
      | list items => simp at h
  · intro fields hj hu
    unfold parse_response_core
    rw [hj]
    simp [hu]

/-- Witness for C2 at a concrete useful response and a concrete all-null
response. -/
theorem C2_witness :
    (∃ fields, json_loads (strip_markdown "\x7b\"sender\": \"A\"\x7d".data)
        = some (PVal.dict fields) ∧ has_useful_info fields = true) ∧
    parse_response_core "\x7b\x7d".data = .error (.documentAnalysisError emptyMsg) :=
  ⟨(C2_amended_usefulness "\x7b\"sender\": \"A\"\x7d".data).1
      [("sender", PVal.str "A")] rfl,
   (C2_amended_usefulness "\x7b\x7d".data).2 [] rfl rfl⟩

/-- Claim C7 (amended): the record the parser returns has exactly the keys
of the parsed response object — extra keys are retained and missing keys
stay absent; only the value conversions change, never the key set.
Missing keys are treated as null solely by the usefulness check and by
downstream `.get` access. -/
theorem C7_amended_keys (l : List Char) (fields r : PRec)
    (hj : json_loads (strip_markdown l) = some (PVal.dict fields))
    (hr : parse_response_core l = .ok r) :
    r.map Prod.fst = fields.map Prod.fst := by
  unfold parse_response_core at hr
  rw [hj] at hr
  by_cases hu : has_useful_info fields
  · simp only [hu, if_true, Except.ok.injEq] at hr
    rw [← hr, convert_amount_keys, convert_date_keys]
  · simp [hu] at hr

/-- Witness for C7 at a concrete response whose amount gets converted. -/
theorem C7_witness :
    ([("amount", PVal.decimal (PyDec.fin 7 0))] : PRec).map Prod.fst
      = ([("amount", PVal.str "7")] : PRec).map Prod.fst :=
  C7_amended_keys "\x7b\"amount\": \"7\"\x7d".data [("amount", PVal.str "7")]
    [("amount", PVal.decimal (PyDec.fin 7 0))] rfl rfl

/-- Claim C8: an amount that arrives as a string is converted through that
very string into an exact decimal (never a binary float), and an amount
whose conversion fails degrades to null without failing the parse. -/
theorem C8_amount_decimal (l : List Char) (fields : PRec) (s : String)
    (hj : json_loads (strip_markdown l) = some (PVal.dict fields))
    (hs : recGet fields "amount" = some (PVal.str s)) :
    ∃ r, parse_response_core l = .ok r ∧
      recGet r "amount" = some (match pyDecimal s with
        | some d => PVal.decimal d
        | Option.none => PVal.none) := by
  have hg : getNotNone fields "amount" = true := by
    unfold getNotNone
    rw [hs]
  have hu : has_useful_info fields = true := by
    unfold has_useful_info
    exact List.any_eq_true.2 ⟨"amount", by simp [useful_fields], hg⟩
  have hd : recGet (convert_date fields) "amount" = some (PVal.str s) := by
    rw [recGet_convert_date _ _ (by decide), hs]
  refine ⟨convert_amount (convert_date fields), ?_, ?_⟩
  · unfold parse_response_core
    rw [hj]
    simp [hu]
  · have heq : convert_amount (convert_date fields)
        = recSet (convert_date fields) "amount"
            (match pyDecimal (pyStr (PVal.str s)) with
             | some d => PVal.decimal d
             | Option.none => PVal.none) := by
      unfold convert_amount
      rw [hd]
    rw [heq]
    exact recGet_recSet_self _ _ _ _ hd

/-- Witness for C8: amount string `15000.50` yields exactly the decimal
15000.50 (rationally 30001/2), and an unconvertible amount degrades to
null while the parse still succeeds. -/
theorem C8_witness :
    (∃ r, parse_response_core "\x7b\"amount\": \"15000.50\"\x7d".data = .ok r ∧
      recGet r "amount" = some (match pyDecimal "15000.50" with
        | some d => PVal.decimal d
        | Option.none => PVal.none)) ∧
    pyDecimal "15000.50" = some (PyDec.fin 1500050 (-2)) ∧
    decToRat (PyDec.fin 1500050 (-2)) = 30001 / 2 ∧
    (∃ r, parse_response_core "\x7b\"amount\": \"abc\", \"sender\": \"A\"\x7d".data
        = .ok r ∧
      recGet r "amount" = some (match pyDecimal "abc" with
        | some d => PVal.decimal d
        | Option.none => PVal.none)) := by
  refine ⟨C8_amount_decimal _ [("amount", PVal.str "15000.50")] "15000.50" rfl rfl,
          rfl, ?_,
          C8_amount_decimal _ [("amount", PVal.str "abc"), ("sender", PVal.str "A")]
            "abc" rfl rfl⟩
  norm_num [decToRat]

/- Lemmas for the fenced-wrapping equivalence. -/

theorem dropTrailing_last (p : Char → Bool) (l : List Char) (c : Char)
    (h : p c = false) : dropTrailing p (l ++ [c]) = l ++ [c] := by
  unfold dropTrailing
  rw [List.reverse_append]
  have hc : ¬ p c = true := by simp [h]
  simp [List.dropWhile_cons_of_neg hc]

theorem dropTrailing_append_nl (p : Char → Bool) (l : List Char)
    (h : p '\n' = true) : dropTrailing p (l ++ ['\n']) = dropTrailing p l := by
  unfold dropTrailing
  rw [List.reverse_append]
  simp [List.dropWhile_cons, h]

theorem jsonTrim_cons_nl (l : List Char) : jsonTrim ('\n' :: l) = jsonTrim l := by
  simp [jsonTrim, List.dropWhile_cons, isJsonWs]

theorem jsonTrim_append_nl (l : List Char) : jsonTrim (l ++ ['\n']) = jsonTrim l := by
  induction l with
  | nil => rfl
  | cons c l ih =>
    by_cases hc : isJsonWs c = true
    · rw [List.cons_append]
      simp only [jsonTrim, List.dropWhile_cons, hc, if_true] at ih ⊢
      exact ih
    · rw [List.cons_append]
      have hc' : ¬ isJsonWs c = true := hc
      simp only [jsonTrim, List.dropWhile_cons_of_neg hc']
      rw [← List.cons_append]
      exact dropTrailing_append_nl isJsonWs (c :: l) (by rfl)

theorem json_loads_nl_pad (j : List Char) :
    json_loads ('\n' :: (j ++ ['\n'])) = json_loads j := by
  unfold json_loads
  rw [jsonTrim_cons_nl, jsonTrim_append_nl]

theorem wrap_fenced_eq (j : List Char) :
    wrap_fenced j
      = '`' :: '`' :: '`' :: 'j' :: 's' :: 'o' :: 'n' :: '\n'
          :: (j ++ ['\n', '`', '`', '`']) := rfl

theorem pyStrip_wrap_fenced (j : List Char) :
    pyStrip (wrap_fenced j) = wrap_fenced j := by
  rw [wrap_fenced_eq]
  unfold pyStrip
  rw [List.dropWhile_cons_of_neg (by decide : ¬ isPyWs '`' = true)]
  have hsplit : '`' :: '`' :: '`' :: 'j' :: 's' :: 'o' :: 'n' :: '\n'
        :: (j ++ ['\n', '`', '`', '`'])
      = ('`' :: '`' :: '`' :: 'j' :: 's' :: 'o' :: 'n' :: '\n'
          :: (j ++ ['\n', '`', '`'])) ++ ['`'] := by
    simp
  rw [hsplit, dropTrailing_last isPyWs _ '`' (by decide)]

theorem strip_markdown_wrap_fenced (j : List Char) :
    strip_markdown (wrap_fenced j) = '\n' :: (j ++ ['\n']) := by
  unfold strip_markdown
  rw [pyStrip_wrap_fenced, wrap_fenced_eq]
  have hpre : startsWithL
      ('`' :: '`' :: '`' :: 'j' :: 's' :: 'o' :: 'n' :: '\n'
        :: (j ++ ['\n', '`', '`', '`'])) fence_json = true := rfl
  unfold stripLeadingFence
  rw [hpre, if_pos rfl]
  have hdrop : ('`' :: '`' :: '`' :: 'j' :: 's' :: 'o' :: 'n' :: '\n'
      :: (j ++ ['\n', '`', '`', '`'])).drop 7
      = '\n' :: (j ++ ['\n', '`', '`', '`']) := rfl
  rw [hdrop]
  have hsuf : endsWithL ('\n' :: (j ++ ['\n', '`', '`', '`'])) fence_ticks = true := by
    unfold endsWithL
    rw [← List.cons_append, List.reverse_append]
    rfl
  unfold stripTrailingFence
  rw [hsuf, if_pos rfl]
  have hlen : ('\n' :: (j ++ ['\n', '`', '`', '`'])).length - 3 = j.length + 2 := by
    simp
  rw [hlen]
  have htake2 : j.length + 2 = (j.length + 1) + 1 := rfl
  rw [htake2, List.take_succ_cons]
  have hsplit : j ++ ['\n', '`', '`', '`'] = (j ++ ['\n']) ++ ['`', '`', '`'] := by
    simp
  rw [hsplit, List.take_left' (by simp)]

theorem strip_markdown_plain (j : List Char) (hstrip : pyStrip j = j)
    (hpre : startsWithL j fence_json = false)
    (hsuf : endsWithL j fence_ticks = false) :
    strip_markdown j = j := by
  unfold strip_markdown stripLeadingFence stripTrailingFence
  rw [hstrip, hpre]
  simp [hsuf]

/-- Claim C9: for a bare JSON text — one that is already stripped and not
itself fence-marked, as every valid JSON text is — parsing the response
wrapped in a tagged ```` ```json ```` fence gives exactly the same result
(record or error) as parsing the unwrapped text. -/
theorem C9_fenced_equiv (j : List Char)
    (hstrip : pyStrip j = j)
    (hpre : startsWithL j fence_json = false)
    (hsuf : endsWithL j fence_ticks = false) :
    parse_response_core (wrap_fenced j) = parse_response_core j := by
  unfold parse_response_core
  rw [strip_markdown_wrap_fenced, strip_markdown_plain j hstrip hpre hsuf,
    json_loads_nl_pad]

/-- Witness for C9 at a concrete JSON object text. -/
theorem C9_witness :
    parse_response_core (wrap_fenced "\x7b\"sender\": \"A\"\x7d".data)
      = parse_response_core "\x7b\"sender\": \"A\"\x7d".data :=
  C9_fenced_equiv "\x7b\"sender\": \"A\"\x7d".data rfl rfl rfl
